import Mathlib

/-!
Verification of the `nit` template picker (src/src/main.rs) against its
natural-language specification.

The repository is a thin wiring of the `ltrait` launcher crates: `main`
builds a `Launcher` with a frecency sorter, a nucleo fuzzy-matching sorter,
a frecency bump action, a closure action running `nix flake init -t`, and a
TUI, over a template list produced by `load_cache`/`load_flake`.

Pure functions of `main.rs` (the context closures, the error message of the
closure action, `load_flake`'s post-processing, `load_cache`'s regeneration
loop, the hard-coded configuration values) are embedded directly from the
source.  The ranking pipeline, recency store and commit dispatch live in the
external `ltrait` crates and are absent from the sources; where a claim
depends on them they are modelled from the spec, each such definition marked
`Modelled from the spec:` in its doc comment.
-/

/- ## Data model (from src/src/main.rs) -/

/-- FlakeInfo from main.rs: optional user-configured flake name and the flake URI. -/
structure FlakeInfo where
  name : Option String
  uri : String
deriving DecidableEq, Repr

/-- Template from main.rs: template name, flake info and description. -/
structure Template where
  name : String
  flake_info : FlakeInfo
  description : String
deriving DecidableEq, Repr

/-- Args from main.rs: the CLI surface parsed by clap
(`re_cache`, `fullscreen`, `inline` with `inline : u16`). -/
structure Args where
  re_cache : Bool
  fullscreen : Bool
  inline : Nat
deriving DecidableEq, Repr

/-- TemplateConfig from main.rs: one `[[template]]` entry of config.toml. -/
structure TemplateConfig where
  name : Option String
  uri : String
  templates : Option (List String)
deriving DecidableEq, Repr

/-- FlakeTemplates from main.rs: the parsed output of `nix flake show --json`.
The Rust field `templates` is a `HashMap<String, Template>`; it is modelled as
an association list in an arbitrary iteration order. -/
structure FlakeTemplates where
  default_template : Template
  templates : List (String × Template)
deriving DecidableEq, Repr

/- ## Matcher configuration (from main.rs lines 64-83) -/

/-- CaseMatching of the nucleo matcher crate. -/
inductive CaseMatching where
  | Respect
  | Ignore
  | Smart
deriving DecidableEq, Repr

/-- Normalization of the nucleo matcher crate. -/
inductive Normalization where
  | Never
  | Smart
deriving DecidableEq, Repr

/-- NucleoMatcher construction arguments: `NucleoMatcher::new(false,
CaseMatching::Smart, Normalization::Smart)` in main.rs; the first boolean is
the positional first argument of the constructor. -/
structure NucleoMatcher where
  match_paths : Bool
  case_matching : CaseMatching
  normalization : Normalization
deriving DecidableEq, Repr

/-- The matcher value constructed once in main.rs line 65-69. -/
def nucleoMatcher : NucleoMatcher :=
  { match_paths := false
    case_matching := CaseMatching.Smart
    normalization := Normalization.Smart }

/-- Context handed to the nucleo sorter per candidate (main.rs line 71):
only the string to match. -/
structure NucleoContext where
  match_string : String
deriving DecidableEq, Repr

/-- The match string built in main.rs lines 72-81:
`"{fname }{uri}#{name}"` where the `"{fname} "` part is present only when
`flake_info.name` is set. -/
def matchString (c : Template) : String :=
  (match c.flake_info.name with
    | some fname => fname ++ " "
    | none => "") ++ c.flake_info.uri ++ "#" ++ c.name

/-- The per-candidate context closure of the nucleo sorter (main.rs line 71). -/
def nucleoContext (c : Template) : NucleoContext :=
  { match_string := matchString c }

/-- The display text built for the TUI entry in main.rs lines 119-128:
`"{fname - }{uri}#{name}"` where the `"{fname} - "` part is present only when
`flake_info.name` is set. -/
def tuiText (c : Template) : String :=
  (match c.flake_info.name with
    | some fname => fname ++ " - "
    | none => "") ++ c.flake_info.uri ++ "#" ++ c.name

/- ## Frecency contexts (from main.rs lines 58-63 and 84-89) -/

/-- Context handed to the frecency sorter/action per candidate: the identity
string used for recency lookups and the bonus added on use. -/
structure FrecencyContext where
  ident : String
  bonus : ℚ
deriving DecidableEq, Repr

/-- The context closure of the frecency sorter (main.rs lines 58-63):
ident `"{uri}-{name}"`, bonus 15. -/
def frecencySorterContext (c : Template) : FrecencyContext :=
  { ident := c.flake_info.uri ++ "-" ++ c.name
    bonus := 15 }

/-- The context closure of the frecency action (main.rs lines 84-89):
ident `"{uri}-{name}"`, bonus 15. -/
def frecencyActionContext (c : Template) : FrecencyContext :=
  { ident := c.flake_info.uri ++ "-" ++ c.name
    bonus := 15 }

/- ## Hard-coded configuration (main.rs lines 49-70) -/

/-- The configuration values the program feeds into the pipeline. -/
structure PipelineConfig where
  half_life_secs : Nat
  type_ident : String
  batch_size : Nat
  bonus : ℚ
  case_matching : CaseMatching
  normalization : Normalization
deriving DecidableEq, Repr

/-- The pipeline configuration as built by `main` (main.rs lines 49-70):
`half_life = Duration::from_secs(30 * 60 * 60 * 24)`, `type_ident =
"nix-nit"`, `.batch_size(1000)`, `bonus: 15.`, and the two Smart matcher
modes.  `main` receives the parsed CLI `Args`, so the configuration is a
function of them; none of the five values reads any field of `args`. -/
def programConfig (_args : Args) : PipelineConfig :=
  { half_life_secs := 30 * 60 * 60 * 24
    type_ident := "nix-nit"
    batch_size := 1000
    bonus := 15
    case_matching := CaseMatching.Smart
    normalization := Normalization.Smart }

/- ## load_flake (main.rs lines 226-252) -/

/-- The post-parse processing of `load_flake` on the success path (main.rs
lines 240-251): the command output has been parsed into a `FlakeTemplates`;
the default template is renamed `"default"`, its URI set to the requested
URI, and pushed first; each entry of the `templates` map follows, its name
set to the map key and its URI set to the requested URI. -/
def load_flake_result (flake : FlakeTemplates) (flake_uri : String) : List Template :=
  let dt : Template :=
    { flake.default_template with
        name := "default"
        flake_info := { flake.default_template.flake_info with uri := flake_uri } }
  dt :: flake.templates.map (fun p =>
    { p.2 with
        name := p.1
        flake_info := { p.2.flake_info with uri := flake_uri } })

/- ## load_cache regeneration (main.rs lines 161-198) -/

/-- The `templates` filter of the regeneration loop (main.rs lines 172-177):
when the config entry lists template names, keep only templates whose name is
contained in that list. -/
def filterTemplates (data : List Template) (fil : Option (List String)) : List Template :=
  match fil with
  | some l => data.filter (fun v => l.contains v.name)
  | none => data

/-- The `name` override of the regeneration loop (main.rs lines 178-182):
when the config entry sets a name, every template of that flake gets it as
its `flake_info.name`. -/
def applyName (data : List Template) (name : Option String) : List Template :=
  match name with
  | some n => data.map (fun i => { i with flake_info := { i.flake_info with name := some n } })
  | none => data

/-- One iteration of the regeneration loop (main.rs lines 170-184) applied to
the templates loaded for one config entry: filter first, then name override. -/
def processFlakeEntry (entry : TemplateConfig) (data : List Template) : List Template :=
  applyName (filterTemplates data entry.templates) entry.name

/-- The full regeneration path of `load_cache` (main.rs lines 161-198),
parametric in the per-URI loader (the `load_flake` invocation): the processed
per-flake lists are concatenated in config order. -/
def load_cache_regen (config : List TemplateConfig) (fetch : String → List Template) :
    List Template :=
  (config.map (fun e => processFlakeEntry e (fetch e.uri))).flatten

/- ## Closure action (main.rs lines 90-104) -/

/-- Output of a finished external process, as inspected by the closure
action: exit status and captured stderr (assumed valid UTF-8, as in the
`String::from_utf8` success path). -/
structure ProcessOutput where
  exitSuccess : Bool
  stderr : String
deriving DecidableEq, Repr

/-- The template URI passed to `nix flake init -t` (main.rs line 91):
`"{uri}#{name}"`. -/
def templateUri (t : Template) : String :=
  t.flake_info.uri ++ "#" ++ t.name

/-- The error message produced by the `ensure!` of the closure action
(main.rs lines 97-101) when `nix flake init -t` exits unsuccessfully. -/
def nitErrMsg (t : Template) (out : ProcessOutput) : String :=
  "failed to run nix flake init -t " ++ templateUri t ++ ", err: " ++ out.stderr

/-- The closure action registered in main.rs lines 90-104: runs
`nix flake init -t {uri}#{name}` and, via `ensure!`, returns `Ok(())` on a
successful exit status and otherwise an error carrying the captured stderr.
The process invocation itself is external; the action is embedded as a
function of the process output it inspects. -/
def closureAction (t : Template) (out : ProcessOutput) : Except String Unit :=
  if out.exitSuccess then Except.ok () else Except.error (nitErrMsg t out)

/- ## Recency store (Modelled from the spec) -/

/-- Modelled from the spec: a RecencyEntry of the Recency Store
(ltrait-sorter-frecency, not in src/): `{ last_used: timestamp, score_at_use:
float }`, keyed by identity in the store.  Scores are modelled as rationals. -/
structure RecencyEntry where
  last_used : Nat
  score_at_use : ℚ
deriving DecidableEq, Repr

/-- Modelled from the spec: the Recency Store mapping identity → entry
(association list; at most one entry per identity is maintained by `bumpStore`). -/
abbrev RecencyStore : Type := List (String × RecencyEntry)

/-- Modelled from the spec: the decayed current score of an entry,
`score_at_use · 2^(−Δt / half_life)`.  The spec's formula is a continuous
real exponential; the model discretizes the exponent to whole half-lives
(rational arithmetic); no claim below depends on the decay value itself. -/
def decayedScore (e : RecencyEntry) (now half_life : Nat) : ℚ :=
  e.score_at_use * (1 / 2) ^ ((now - e.last_used) / half_life)

/-- Modelled from the spec: `lookup(identity)` returns the decayed current
score, or the baseline 0 for an unseen identity, without mutating the store. -/
def lookupScore (s : RecencyStore) (ident : String) (now half_life : Nat) : ℚ :=
  match s.lookup ident with
  | some e => decayedScore e now half_life
  | none => 0

/-- Modelled from the spec: `bump(identity, bonus, now)` — the store's only
mutator — sets `score_at_use` to the decayed current score plus the bonus and
`last_used` to now. -/
def bumpStore (s : RecencyStore) (ident : String) (bonus : ℚ) (now half_life : Nat) :
    RecencyStore :=
  (ident, ⟨now, lookupScore s ident now half_life + bonus⟩)
    :: List.filter (fun p => p.1 ≠ ident) s

/- ## Selection Controller commit (Modelled from the spec) -/

/-- The half-life the program configures (30 days in seconds, main.rs line 51). -/
def halfLifeSecs : Nat := 30 * 60 * 60 * 24

/-- Result of one commit: the outcome surfaced to the caller, the store after
the commit, and whether the store was persisted for this commit. -/
structure CommitResult where
  outcome : Except String Unit
  store : RecencyStore
  persisted : Bool

/-- Modelled from the spec: the Selection Controller's commit (the `ltrait`
launcher's action dispatch, not in src/).  The external action collaborator —
here the closure action of main.rs — runs on the committed item; on success
the committed identity is bumped with the bonus of the registered frecency
action context (main.rs lines 84-89) and the store is persisted; on failure
the error is surfaced unchanged, the store is left untouched and unpersisted. -/
def commit (s : RecencyStore) (t : Template) (out : ProcessOutput) (now : Nat) :
    CommitResult :=
  match closureAction t out with
  | Except.ok () =>
      { outcome := Except.ok ()
        store := bumpStore s (frecencyActionContext t).ident (frecencyActionContext t).bonus
          now halfLifeSecs
        persisted := true }
  | Except.error e =>
      { outcome := Except.error e
        store := s
        persisted := false }

/- ## Scoring pass and session loop (Modelled from the spec) -/

/-- Modelled from the spec: one scoring pass of the Pipeline Scheduler over
the whole item list (the `ltrait` launcher internals, not in src/): the fuzzy
matcher scores each item's match string against the query (`none` drops the
item), the Score Combiner merges the fuzzy score with the recency score of
the item's identity, and the view is sorted descending by combined score. -/
def rankedView (fuzzy : String → String → Option ℚ) (recency : String → ℚ)
    (query : String) (items : List Template) : List (Template × ℚ) :=
  let scored := items.filterMap (fun t =>
    (fuzzy query (matchString t)).map
      (fun fs => (t, fs + recency (frecencySorterContext t).ident)))
  scored.mergeSort (fun a b => decide (b.2 ≤ a.2))

/-- Session state held across the interactive loop: the canonical item list
materialized once by `load_cache` before the launcher starts, the live query,
the recency store and the current ranked view. -/
structure SessionState where
  items : List Template
  query : String
  store : RecencyStore
  view : List (Template × ℚ)

/-- Events driving the session loop: a query edit (with the wall-clock time
of the rescoring pass) or a commit of a highlighted item (with the observed
outcome of the external action and the wall-clock time). -/
inductive SessionEvent where
  | keystroke (q : String) (now : Nat)
  | commitSel (t : Template) (out : ProcessOutput) (now : Nat)

/-- Modelled from the spec: one step of the interactive loop.  A keystroke
re-ranks the (unchanged) item list; a commit runs the Selection Controller;
no event re-fetches or mutates the item list. -/
def step (fuzzy : String → String → Option ℚ) (s : SessionState) (e : SessionEvent) :
    SessionState :=
  match e with
  | SessionEvent.keystroke q now =>
      { s with
          query := q
          view := rankedView fuzzy (fun i => lookupScore s.store i now halfLifeSecs) q s.items }
  | SessionEvent.commitSel t out now =>
      { s with store := (commit s.store t out now).store }

/-- Modelled from the spec: a whole session — the item list is materialized
once (`load_cache` in main.rs line 47) before the loop and the loop folds
over the event stream. -/
def runSession (fuzzy : String → String → Option ℚ) (init : List Template)
    (store0 : RecencyStore) (events : List SessionEvent) : SessionState :=
  events.foldl (step fuzzy)
    { items := init
      query := ""
      store := store0
      view := rankedView fuzzy (fun i => lookupScore store0 i 0 halfLifeSecs) "" init }

/- ## Shared concrete inputs for witnesses -/

/-- A template with no configured flake name. -/
def tW : Template :=
  { name := "default"
    flake_info := { name := none, uri := "github:NixOS/templates" }
    description := "" }

/-- A template with a configured flake name. -/
def tNamed : Template :=
  { name := "default"
    flake_info := { name := some "test", uri := "github:NixOS/templates" }
    description := "" }

/- ## Helper lemmas -/

theorem step_preserves_items (fuzzy : String → String → Option ℚ) (s : SessionState)
    (e : SessionEvent) : (step fuzzy s e).items = s.items := by
  cases e <;> rfl

theorem foldl_step_items (fuzzy : String → String → Option ℚ) (events : List SessionEvent)
    (s : SessionState) : (events.foldl (step fuzzy) s).items = s.items := by
  induction events generalizing s with
  | nil => rfl
  | cons e es ih => rw [List.foldl_cons, ih, step_preserves_items]

theorem rankedView_nil (fuzzy : String → String → Option ℚ) (recency : String → ℚ)
    (query : String) : rankedView fuzzy recency query [] = [] := by
  simp [rankedView]

theorem foldl_step_empty_view (fuzzy : String → String → Option ℚ)
    (events : List SessionEvent) (s : SessionState) (hi : s.items = []) (hv : s.view = []) :
    (events.foldl (step fuzzy) s).view = [] := by
  induction events generalizing s with
  | nil => exact hv
  | cons e es ih =>
    rw [List.foldl_cons]
    apply ih
    · rw [step_preserves_items, hi]
    · cases e with
      | keystroke q now => simp [step, hi, rankedView_nil]
      | commitSel t out now => simpa [step] using hv

/- ## Claim theorems -/

/-- C10: for every template, the identity string supplied to the frecency
sorter equals the identity string supplied to the frecency action on commit,
and both are the flake URI, a hyphen, and the template name, so ranking reads
and commit bumps the same store entry. -/
theorem frecency_ident_consistent (c : Template) :
    (frecencySorterContext c).ident = (frecencyActionContext c).ident ∧
    (frecencyActionContext c).ident = c.flake_info.uri ++ "-" ++ c.name :=
  ⟨rfl, rfl⟩

/-- C5: the fuzzy matcher is constructed once with Smart case matching and
Smart normalization, and the per-candidate context supplies only the match
string, so the one configuration applies identically to every candidate. -/
theorem matcher_config_smart :
    nucleoMatcher.case_matching = CaseMatching.Smart ∧
    nucleoMatcher.normalization = Normalization.Smart ∧
    ∀ c : Template, nucleoContext c = { match_string := matchString c } :=
  ⟨rfl, rfl, fun _ => rfl⟩

/-- C2: when the external action on a committed item succeeds, the committed
identity is bumped with a bonus of 15 recency-score units and the store is
persisted; the bonus constant of the registered frecency action equals 15 for
every template. -/
theorem commit_success_bumps_15 (s : RecencyStore) (t : Template) (out : ProcessOutput)
    (now : Nat) (h : out.exitSuccess = true) :
    (commit s t out now).store =
      bumpStore s (frecencyActionContext t).ident 15 now halfLifeSecs ∧
    (commit s t out now).persisted = true ∧
    (frecencyActionContext t).bonus = 15 := by
  refine ⟨?_, ?_, rfl⟩ <;> simp [commit, closureAction, h, frecencyActionContext]

theorem commit_success_bumps_15_witness :
    (ProcessOutput.mk true "").exitSuccess = true ∧
    (commit [] tW (ProcessOutput.mk true "") 0).persisted = true :=
  ⟨rfl, (commit_success_bumps_15 [] tW (ProcessOutput.mk true "") 0 rfl).2.1⟩

/-- C1: when the external action on a committed item fails, the error is
surfaced to the caller with the captured stderr attached to the message, the
recency entry of the committed identity is not bumped (the store is
unchanged) and the store is not persisted for this commit. -/
theorem commit_failure_no_bump (s : RecencyStore) (t : Template) (out : ProcessOutput)
    (now : Nat) (h : out.exitSuccess = false) :
    (commit s t out now).outcome = Except.error (nitErrMsg t out) ∧
    (∃ p, nitErrMsg t out = p ++ out.stderr) ∧
    (commit s t out now).store = s ∧
    (commit s t out now).persisted = false := by
  refine ⟨?_, ⟨"failed to run nix flake init -t " ++ templateUri t ++ ", err: ", rfl⟩, ?_, ?_⟩
    <;> simp [commit, closureAction, h]

theorem commit_failure_no_bump_witness :
    (ProcessOutput.mk false "boom").exitSuccess = false ∧
    (commit [] tW (ProcessOutput.mk false "boom") 0).store = [] :=
  ⟨rfl, (commit_failure_no_bump [] tW (ProcessOutput.mk false "boom") 0 rfl).2.2.1⟩

/-- C3 counterexample: for the concrete template with flake name `"test"` and
URI `"github:NixOS/templates"`, the string handed to the fuzzy matcher
(`"test github:NixOS/templates#default"`) differs from the display text
handed to the TUI (`"test - github:NixOS/templates#default"`). -/
theorem match_text_ne_display_text : matchString tNamed ≠ tuiText tNamed := by
  decide

/-- C3 amended: the candidate text handed to the fuzzy matcher equals the
display text handed to the UI exactly for templates with no configured flake
name (both are `uri#name`); when a flake name is set both prepend it, but the
matcher text separates it by a space while the display text separates it by
a space-hyphen-space, so the two strings always differ. -/
theorem match_text_vs_display_text (c : Template) :
    (c.flake_info.name = none → matchString c = tuiText c) ∧
    (∀ f, c.flake_info.name = some f → matchString c ≠ tuiText c) := by
  constructor
  · intro h
    simp [matchString, tuiText, h]
  · intro f h heq
    have hl := congrArg String.length heq
    simp only [matchString, tuiText, h, String.length_append] at hl
    have e1 : (" ").length = 1 := rfl
    have e3 : (" - ").length = 3 := rfl
    omega

theorem match_text_vs_display_text_witness :
    (matchString tW = tuiText tW) ∧ (matchString tNamed ≠ tuiText tNamed) :=
  ⟨(match_text_vs_display_text tW).1 rfl,
   (match_text_vs_display_text tNamed).2 "test" rfl⟩

/-- C4: when the catalog supplies no items, the pipeline still runs and
produces an empty ranked view: a scoring pass over the empty list yields the
empty view, and a whole session over the empty list keeps an empty view
through every event without failing. -/
theorem empty_catalog_empty_view (fuzzy : String → String → Option ℚ)
    (recency : String → ℚ) (query : String) (store0 : RecencyStore)
    (events : List SessionEvent) :
    rankedView fuzzy recency query [] = [] ∧
    (runSession fuzzy [] store0 events).view = [] := by
  refine ⟨rankedView_nil fuzzy recency query, ?_⟩
  unfold runSession
  exact foldl_step_empty_view fuzzy events _ rfl
    (rankedView_nil fuzzy (fun i => lookupScore store0 i 0 halfLifeSecs) "")

/-- C6: the item list is materialized once at session start and is immutable
for the session lifetime: every step of the session loop leaves the item
list unchanged, so after any event stream the canonical list is still the one
loaded at start. -/
theorem session_items_immutable (fuzzy : String → String → Option ℚ)
    (init : List Template) (store0 : RecencyStore) (events : List SessionEvent) :
    (runSession fuzzy init store0 events).items = init ∧
    ∀ s e, (step fuzzy s e).items = s.items :=
  ⟨foldl_step_items fuzzy events _, fun s e => step_preserves_items fuzzy s e⟩

/-- C7 counterexample: two CLI inputs differing in every argument produce the
identical pipeline configuration, whose bonus is the fixed value 15 — the
half-life, bonus, batch size, matcher modes and store namespace are not
configurable through the program. -/
theorem programConfig_ignores_args :
    programConfig (Args.mk true true 1) = programConfig (Args.mk false false 9999) ∧
    (programConfig (Args.mk true true 1)).bonus = 15 :=
  ⟨rfl, rfl⟩

/-- C7 amended: the configuration surface (half-life, bonus, batch size,
case/normalization modes, store namespace) exists as constructor parameters
of the wired components, but the program fixes all of them to hard-coded
constants — 30 days, 15, 1000, Smart, Smart, `"nix-nit"` — independent of
the command-line arguments; only `re_cache`, `fullscreen` and the inline
height are configurable. -/
theorem programConfig_hard_coded (a : Args) :
    programConfig a =
      { half_life_secs := 2592000
        type_ident := "nix-nit"
        batch_size := 1000
        bonus := 15
        case_matching := CaseMatching.Smart
        normalization := Normalization.Smart } :=
  rfl

/-- C8: for every flake whose `nix flake show` output parsed successfully,
the processed result list starts with a template named `"default"`, and every
template in the list carries the requested flake URI in its flake info. -/
theorem load_flake_result_spec (flake : FlakeTemplates) (uri : String) :
    (load_flake_result flake uri).head?.map Template.name = some "default" ∧
    ∀ t, t ∈ load_flake_result flake uri → t.flake_info.uri = uri := by
  constructor
  · rfl
  · intro t ht
    simp only [load_flake_result, List.mem_cons, List.mem_map] at ht
    rcases ht with rfl | ⟨p, _, rfl⟩
    · rfl
    · rfl

/-- A concrete parsed flake for the C8 witness. -/
def flakeW : FlakeTemplates :=
  { default_template := { name := "x", flake_info := { name := none, uri := "y" }, description := "d" }
    templates := [("t1", { name := "z", flake_info := { name := none, uri := "w" }, description := "e" })] }

theorem load_flake_result_spec_witness :
    (Template.mk "t1" (FlakeInfo.mk none "github:a/b") "e") ∈ load_flake_result flakeW "github:a/b" ∧
    (Template.mk "t1" (FlakeInfo.mk none "github:a/b") "e").flake_info.uri = "github:a/b" :=
  ⟨by decide,
   (load_flake_result_spec flakeW "github:a/b").2
     (Template.mk "t1" (FlakeInfo.mk none "github:a/b") "e") (by decide)⟩

/-- C9: in the regeneration path of `load_cache`, for a config entry with a
`templates` list only templates whose name is in that list survive, and for
an entry with a `name` every resulting template of that flake carries it as
its flake name. -/
theorem processFlakeEntry_spec (entry : TemplateConfig) (data : List Template)
    (t : Template) (ht : t ∈ processFlakeEntry entry data) :
    (∀ fil, entry.templates = some fil → t.name ∈ fil) ∧
    (∀ n, entry.name = some n → t.flake_info.name = some n) := by
  unfold processFlakeEntry at ht
  constructor
  · intro fil hfil
    rw [hfil] at ht
    cases hn : entry.name with
    | none =>
        rw [hn] at ht
        simp only [applyName] at ht
        simp only [filterTemplates, List.mem_filter] at ht
        exact List.elem_iff.mp ht.2
    | some n =>
        rw [hn] at ht
        simp only [applyName, List.mem_map] at ht
        rcases ht with ⟨i, hi, rfl⟩
        simp only [filterTemplates, List.mem_filter] at hi
        exact List.elem_iff.mp hi.2
  · intro n hn
    rw [hn] at ht
    simp only [applyName, List.mem_map] at ht
    rcases ht with ⟨i, _, rfl⟩
    rfl

/-- A concrete config entry and data for the C9 witness. -/
def entryW : TemplateConfig :=
  { name := some "nm", uri := "github:a/b", templates := some ["t1"] }

/-- A concrete per-flake template list for the C9 witness. -/
def dataW : List Template :=
  [{ name := "t1", flake_info := { name := none, uri := "github:a/b" }, description := "" },
   { name := "t2", flake_info := { name := none, uri := "github:a/b" }, description := "" }]

theorem processFlakeEntry_spec_witness :
    (Template.mk "t1" (FlakeInfo.mk (some "nm") "github:a/b") "") ∈ processFlakeEntry entryW dataW ∧
    (Template.mk "t1" (FlakeInfo.mk (some "nm") "github:a/b") "").name ∈ ["t1"] ∧
    (Template.mk "t1" (FlakeInfo.mk (some "nm") "github:a/b") "").flake_info.name = some "nm" :=
  ⟨by decide,
   (processFlakeEntry_spec entryW dataW
     (Template.mk "t1" (FlakeInfo.mk (some "nm") "github:a/b") "") (by decide)).1 ["t1"] rfl,
   (processFlakeEntry_spec entryW dataW
     (Template.mk "t1" (FlakeInfo.mk (some "nm") "github:a/b") "") (by decide)).2 "nm" rfl⟩
